import Mathlib

/-!
Shallow embedding of the `Setup-Demo` FastAPI service
(`src/Setup-Demo/app/main.py`, `src/Setup-Demo/app/database.py`).

The service exposes two endpoints over one relational table `hero`:
`GET /` returns a fixed greeting, and `POST /heroes/` inserts a new
`Hero` row derived from the required `name` query parameter.  Schema
creation happens once in the application lifespan hook before requests
are served, and each request obtains a database session through a
generator dependency that releases it on every exit path.
-/

namespace SetupDemo

/-- The `Hero` SQLModel from `main.py`:
`id : int | None` (primary key, server-assigned), `name : str`,
`age : int | None` (defaults to `None`), `secret_name : str`. -/
structure Hero where
  id : Option Nat
  name : String
  age : Option Int
  secret_name : String
deriving Repr, DecidableEq

/-- Database state: the set of created tables (by name), the next
primary-key value the storage layer will assign, and the persisted
rows of the `hero` table. -/
structure DB where
  tables : List String
  nextId : Nat
  rows : List Hero
deriving Repr, DecidableEq

/-- The schema declared by the SQLModel metadata: the single `hero` table. -/
def schemaTables : List String := ["hero"]

/-- `create_db_and_tables` from `database.py`: runs
`SQLModel.metadata.create_all(engine)`, which creates every table of the
metadata that does not already exist (SQLAlchemy `create_all` checks for
existence first) and leaves existing tables untouched. -/
def create_db_and_tables (db : DB) : DB :=
  { db with
    tables := db.tables ++ (schemaTables.filter (fun t => ¬ t ∈ db.tables)) }

/-- The constructor call `Hero(name=name, secret_name=f"secrete_{name}")`
in `create_hero`: `id` and `age` keep their `None` defaults. -/
def mkHero (name : String) : Hero :=
  { id := none, name := name, age := none, secret_name := "secrete_" ++ name }

/-- `session.add(hero); session.commit(); session.refresh(hero)`: the
storage layer persists the row with one insert, assigning the
server-generated primary key, and `refresh` populates the in-memory
object with the assigned `id`.  Returns the new database state and the
refreshed record. -/
def insertHero (db : DB) (h : Hero) : DB × Hero :=
  let assigned := { h with id := some db.nextId }
  ({ db with nextId := db.nextId + 1, rows := db.rows ++ [assigned] }, assigned)

/-- `create_hero(name, session)` from `main.py`: build the hero from the
`name` parameter, insert it, and return the refreshed record. -/
def create_hero (name : String) (db : DB) : DB × Hero :=
  insertHero db (mkHero name)

/-- Responses the service can produce for `POST /heroes/`. -/
inductive HeroResponse where
  /-- 200 with the serialized hero record. -/
  | ok (hero : Hero)
  /-- 422: FastAPI request-validation error (client error). -/
  | validationError
  /-- 5xx-equivalent server error. -/
  | serverError
deriving Repr, DecidableEq

/-- The full `POST /heroes/` route: FastAPI first validates the query
string against the signature `name: str`.  A missing `name` parameter
fails validation with a 422 before the handler runs (so no insert
happens); a query value is always a string, so any present value passes
type coercion and the handler `create_hero` runs. -/
def post_heroes (nameParam : Option String) (db : DB) : DB × HeroResponse :=
  match nameParam with
  | none => (db, .validationError)
  | some name =>
    let r := create_hero name db
    (r.1, .ok r.2)

/-- The `GET /` response payload `{"message": "Hello World Winnie"}`. -/
structure RootPayload where
  message : String
deriving Repr, DecidableEq

/-- The `GET /` handler `get()` from `main.py`: returns the fixed
payload and touches no state. -/
def get_root (db : DB) : DB × RootPayload :=
  (db, { message := "Hello World Winnie" })

/-- What a request handler's body can do with the session it was given:
finish normally with a value, or raise an exception. -/
inductive HandlerOutcome (α : Type) where
  | ok (a : α)
  | raised (msg : String)
deriving Repr, DecidableEq

/-- `get_session` from `database.py`: `with Session(engine) as session:
yield session`.  The dependency acquires one session from the pool,
hands it to the request handler, and the `with` block releases it when
the generator resumes — on normal completion and on exception alike
(commit/rollback is left to the handler).  `inUse` counts sessions
currently held; the handler receives the session while it is held. -/
def get_session_run {α : Type} (inUse : Nat)
    (handler : Nat → HandlerOutcome α) : Nat × HandlerOutcome α :=
  let held := inUse + 1
  let result := handler held
  (held - 1, result)

/-- Startup phases of the application lifespan. -/
inductive Phase where
  | Stopped
  | SchemaEnsured
  | Serving
deriving Repr, DecidableEq

/-- Whole-system state: the lifecycle phase, the database, how many
times `create_db_and_tables` has run, and how many requests have been
served. -/
structure SysState where
  phase : Phase
  db : DB
  schemaRuns : Nat
  served : Nat
deriving Repr, DecidableEq

/-- Initial state: application stopped, no schema runs, no requests
served, over an arbitrary starting database. -/
def initState (db : DB) : SysState :=
  { phase := .Stopped, db := db, schemaRuns := 0, served := 0 }

/-- The lifespan hook and request loop from `main.py` as a step
relation.  `lifespan` runs `create_db_and_tables()` once and then
yields, after which FastAPI begins accepting requests; requests are
only handled while serving. -/
inductive SysStep : SysState → SysState → Prop where
  /-- `create_db_and_tables()` at the top of `lifespan`. -/
  | ensureSchema (s : SysState) (h : s.phase = .Stopped) :
      SysStep s { phase := .SchemaEnsured, db := create_db_and_tables s.db,
                  schemaRuns := s.schemaRuns + 1, served := s.served }
  /-- the `yield` in `lifespan`: the app starts accepting requests. -/
  | beginServing (s : SysState) (h : s.phase = .SchemaEnsured) :
      SysStep s { s with phase := .Serving }
  /-- one `POST /heroes/` request handled while serving. -/
  | handleRequest (s : SysState) (nameParam : Option String)
      (h : s.phase = .Serving) :
      SysStep s { s with db := (post_heroes nameParam s.db).1,
                         served := s.served + 1 }

/-- States reachable from the initial state over `db0`. -/
def Reachable (db0 : DB) (s : SysState) : Prop :=
  Relation.ReflTransGen SysStep (initState db0) s

/-! ## Theorems -/

/-- After `create_db_and_tables`, the `hero` table exists. -/
lemma hero_mem_create_db_and_tables (db : DB) :
    "hero" ∈ (create_db_and_tables db).tables := by
  by_cases h : "hero" ∈ db.tables <;>
    simp [create_db_and_tables, schemaTables, List.filter, h]

/-- `create_db_and_tables` does nothing when the `hero` table already
exists (SQLAlchemy `create_all` checks for existence first). -/
lemma create_db_and_tables_of_mem (db : DB) (h : "hero" ∈ db.tables) :
    create_db_and_tables db = db := by
  simp [create_db_and_tables, schemaTables, List.filter, h]

/-- The `POST /heroes/` route never touches the set of tables. -/
lemma post_heroes_tables (p : Option String) (db : DB) :
    ((post_heroes p db).1).tables = db.tables := by
  cases p <;> simp [post_heroes, create_hero, insertHero]

/-- C1: for every string `name`, `POST /heroes/` builds a hero with
`secret_name = "secrete_" ++ name` and `age = null`, persists it with
exactly one insert (one row appended, nothing else touched), and
returns the fully populated record with a non-null server-assigned
`id`. -/
theorem create_hero_correct (name : String) (db : DB) :
    ((create_hero name db).2).name = name ∧
    ((create_hero name db).2).secret_name = "secrete_" ++ name ∧
    ((create_hero name db).2).age = none ∧
    ((create_hero name db).2).id = some db.nextId ∧
    ((create_hero name db).1).rows = db.rows ++ [(create_hero name db).2] ∧
    ((create_hero name db).1).tables = db.tables ∧
    (post_heroes (some name) db).2 = .ok (create_hero name db).2 := by
  simp [create_hero, insertHero, mkHero, post_heroes]

/-- C2: a `POST /heroes/` request with no `name` query parameter fails
FastAPI validation with a 422 client error (not a server error) and the
database is left completely unchanged — no record is inserted. -/
theorem post_heroes_missing_name (db : DB) :
    post_heroes none db = (db, .validationError) ∧
    HeroResponse.validationError ≠ HeroResponse.serverError := by
  simp [post_heroes]

/-- C3: schema creation is idempotent.  For every database state with
at most one `hero` table (as any real relational database has, table
names being unique), calling `create_db_and_tables` twice equals
calling it once — the operation is total, so no error — and the result
holds exactly one `hero` table, never a duplicate. -/
theorem create_db_and_tables_idempotent (db : DB)
    (h : db.tables.count "hero" ≤ 1) :
    create_db_and_tables (create_db_and_tables db) = create_db_and_tables db ∧
    (create_db_and_tables db).tables.count "hero" = 1 := by
  constructor
  · exact create_db_and_tables_of_mem _ (hero_mem_create_db_and_tables db)
  · by_cases hm : "hero" ∈ db.tables
    · rw [create_db_and_tables_of_mem db hm]
      have := List.count_pos_iff.mpr hm
      omega
    · have h0 : db.tables.count "hero" = 0 := List.count_eq_zero.mpr hm
      simp [create_db_and_tables, schemaTables, List.filter, hm,
        List.count_append, h0]

/-- Witness for C3 at the empty database. -/
theorem create_db_and_tables_idempotent_witness :
    (⟨[], 0, []⟩ : DB).tables.count "hero" ≤ 1 ∧
    (create_db_and_tables (create_db_and_tables ⟨[], 0, []⟩)
        = create_db_and_tables ⟨[], 0, []⟩ ∧
      (create_db_and_tables (⟨[], 0, []⟩ : DB)).tables.count "hero" = 1) :=
  ⟨by decide, create_db_and_tables_idempotent ⟨[], 0, []⟩ (by decide)⟩

/-- C4: two sequential `POST /heroes/` creations with the same `name`
both succeed with an `ok` response, and the two returned records carry
distinct `id` values. -/
theorem post_heroes_twice_distinct_ids (name : String) (db : DB) :
    ∃ h₁ h₂ : Hero,
      (post_heroes (some name) db).2 = .ok h₁ ∧
      (post_heroes (some name) (post_heroes (some name) db).1).2 = .ok h₂ ∧
      h₁.id ≠ h₂.id := by
  refine ⟨(create_hero name db).2,
    (create_hero name (create_hero name db).1).2, ?_, ?_, ?_⟩
  · simp [post_heroes]
  · simp [post_heroes]
  · simp [create_hero, insertHero, mkHero]

/-- C5: the `id` of a hero is assigned only by the storage layer at the
insert.  The record the handler constructs carries `id = none` (never
client-supplied), `create_hero` passes exactly that record to the
insert without touching `id`, and the insert is what assigns the
server-generated key. -/
theorem hero_id_storage_assigned (name : String) (db : DB) :
    (mkHero name).id = none ∧
    create_hero name db = insertHero db (mkHero name) ∧
    ((insertHero db (mkHero name)).2).id = some db.nextId := by
  refine ⟨rfl, rfl, ?_⟩
  simp [insertHero]

/-- C6: in every database state, `GET /` returns the literal payload
`{"message": "Hello World Winnie"}` and leaves the database unchanged
(no side effects, no failure mode — the handler is total). -/
theorem get_root_constant (db : DB) :
    get_root db = (db, { message := "Hello World Winnie" }) := rfl

/-- C7: every session acquired through `get_session` is released on
every exit path: whatever the handler does with the held session —
finish normally or raise — the number of sessions in use afterwards
equals the number before, and the handler's outcome (commit/rollback
state included) is surfaced unchanged to the caller. -/
theorem get_session_always_released (inUse : Nat)
    (handler : Nat → HandlerOutcome Hero) :
    (get_session_run inUse handler).1 = inUse ∧
    (get_session_run inUse handler).2 = handler (inUse + 1) := by
  constructor
  · simp [get_session_run]
  · rfl

/-- C8: the startup step relation follows
`Stopped → SchemaEnsured → Serving`.  In every reachable state,
`create_db_and_tables` has run at most once; while stopped it has not
run and no request has been served; once past `Stopped` it has run
exactly once and the `hero` table exists; and any state that has served
a request is a `Serving` state — so no request is accepted before
schema creation has completed. -/
theorem startup_schema_before_serving (db0 : DB) (s : SysState)
    (h : Reachable db0 s) :
    s.schemaRuns ≤ 1 ∧
    (s.phase = .Stopped → s.schemaRuns = 0 ∧ s.served = 0) ∧
    (s.phase ≠ .Stopped → s.schemaRuns = 1 ∧ "hero" ∈ s.db.tables) ∧
    (0 < s.served → s.phase = .Serving ∧ s.schemaRuns = 1) := by
  induction h with
  | refl => simp [initState]
  | tail hab hbc ih =>
    rename_i b c
    obtain ⟨ih₁, ih₂, ih₃, ih₄⟩ := ih
    cases hbc with
    | ensureSchema ht =>
      obtain ⟨hr0, hs0⟩ := ih₂ ht
      refine ⟨?_, ?_, ?_, ?_⟩
      · show b.schemaRuns + 1 ≤ 1
        omega
      · show Phase.SchemaEnsured = .Stopped → _
        exact fun hc => absurd hc (by decide)
      · show Phase.SchemaEnsured ≠ .Stopped →
          b.schemaRuns + 1 = 1 ∧ "hero" ∈ (create_db_and_tables b.db).tables
        exact fun _ => ⟨by omega, hero_mem_create_db_and_tables b.db⟩
      · show 0 < b.served → Phase.SchemaEnsured = .Serving ∧ _
        exact fun hs => absurd hs (by omega)
    | beginServing ht =>
      have hne : b.phase ≠ .Stopped := by rw [ht]; decide
      obtain ⟨hr1, hmem⟩ := ih₃ hne
      refine ⟨ih₁, ?_, ?_, ?_⟩
      · show Phase.Serving = .Stopped → _
        exact fun hc => absurd hc (by decide)
      · show Phase.Serving ≠ .Stopped →
          b.schemaRuns = 1 ∧ "hero" ∈ b.db.tables
        exact fun _ => ⟨hr1, hmem⟩
      · show 0 < b.served → Phase.Serving = .Serving ∧ b.schemaRuns = 1
        exact fun _ => ⟨rfl, hr1⟩
    | handleRequest p ht =>
      have hne : b.phase ≠ .Stopped := by rw [ht]; decide
      obtain ⟨hr1, hmem⟩ := ih₃ hne
      refine ⟨ih₁, ?_, ?_, ?_⟩
      · show b.phase = .Stopped → _
        intro hc
        rw [ht] at hc
        exact absurd hc (by decide)
      · show b.phase ≠ .Stopped →
          b.schemaRuns = 1 ∧ "hero" ∈ ((post_heroes p b.db).1).tables
        intro _
        refine ⟨hr1, ?_⟩
        rw [post_heroes_tables]
        exact hmem
      · show 0 < b.served + 1 → b.phase = .Serving ∧ b.schemaRuns = 1
        exact fun _ => ⟨ht, hr1⟩

/-- Witness for C8 at the `Serving` state reached from the empty
database by running the schema step and then beginning to serve. -/
theorem startup_schema_before_serving_witness :
    ({ phase := .Serving, db := create_db_and_tables ⟨[], 0, []⟩,
       schemaRuns := 0 + 1, served := 0 } : SysState).schemaRuns = 1 ∧
    "hero" ∈ ({ phase := .Serving, db := create_db_and_tables ⟨[], 0, []⟩,
                schemaRuns := 0 + 1, served := 0 } : SysState).db.tables := by
  have hr : Reachable ⟨[], 0, []⟩
      { phase := .Serving, db := create_db_and_tables ⟨[], 0, []⟩,
        schemaRuns := 0 + 1, served := 0 } :=
    Relation.ReflTransGen.tail
      (Relation.ReflTransGen.tail Relation.ReflTransGen.refl
        (SysStep.ensureSchema (initState ⟨[], 0, []⟩) rfl))
      (SysStep.beginServing _ rfl)
  exact (startup_schema_before_serving ⟨[], 0, []⟩ _ hr).2.2.1 (by decide)

/-- C9: the `name`, `secret_name` and `age` fields of the record
returned by `create_hero` depend only on the `name` input: two runs
with the same `name` over different prior database states agree on all
three fields (only `id` may differ). -/
theorem create_hero_noninterference (name : String) (db₁ db₂ : DB) :
    ((create_hero name db₁).2).name = ((create_hero name db₂).2).name ∧
    ((create_hero name db₁).2).secret_name
      = ((create_hero name db₂).2).secret_name ∧
    ((create_hero name db₁).2).age = ((create_hero name db₂).2).age := by
  simp [create_hero, insertHero, mkHero]

/-- C10: the empty string is accepted as a `name`: the request passes
validation, the handler runs, and the returned record has `name = ""`
and `secret_name = "secrete_"`. -/
theorem create_hero_empty_name (db : DB) :
    (post_heroes (some "") db).2 = .ok (create_hero "" db).2 ∧
    ((create_hero "" db).2).name = "" ∧
    ((create_hero "" db).2).secret_name = "secrete_" := by
  simp [post_heroes, create_hero, insertHero, mkHero]

end SetupDemo
